import Mathlib

/-!
Shallow embedding of the TRUVOICE AI-detection dashboard
(React client in `src/src`, Express backend in `src/server/index.js`),
restricted to the parts its specification makes claims about:

* the session verdict function (`getVerdict`, TextAnalyzer.tsx),
* the result aggregator (`handleDetectionResult`, App.tsx),
* the text-analysis input gate (`handleAnalyze`, TextAnalyzer.tsx, and
  `analyzeResponse`, TestResponseDetector),
* the bounded history buffers (client `detectionHistory`, backend
  `detectionHistory` / `suspiciousSegments`),
* capture-loop `stop` (ScreenCapture.tsx / MediaCapture.tsx),
* the backend endpoints `POST /api/detect` and `DELETE /api/suspicious`.

Numbers that are JS `number`s carrying scores are modelled as `ℚ`
(the code only ever adds, multiplies, divides and `Math.round`s them);
rounded percentage scores are `ℤ`.
-/

namespace AIDetection

/-- JS `Math.round x = ⌊x + 1/2⌋` (round half toward +∞). -/
def jsRound (q : ℚ) : ℤ := ⌊q + 1/2⌋

/-- JS `arr.slice(-n)`: the last `n` elements (all of them when `arr` is
shorter than `n`). -/
def jsSliceLast (n : ℕ) (l : List α) : List α := l.drop (l.length - n)

/-- JS `s.includes(pat)` for a nonempty pattern: `String.splitOn` yields
more than one piece exactly when the pattern occurs in `s`. -/
def jsIncludes (s pat : String) : Bool := (s.splitOn pat).length > 1

/-- JS `s.trim()`: strip leading and trailing whitespace. -/
def jsTrim (s : String) : String :=
  ⟨((s.data.dropWhile Char.isWhitespace).reverse.dropWhile Char.isWhitespace).reverse⟩

theorem jsSliceLast_length (n : ℕ) (l : List α) :
    (jsSliceLast n l).length = min n l.length := by
  simp [jsSliceLast]
  omega

/-! ### Session verdict (`getVerdict`, src/src/components/TextAnalyzer.tsx 497-505) -/

/-- The three-way session classification. -/
inductive Verdict where
  | aiGenerated
  | likelyHuman
  | inconclusive
deriving DecidableEq, Repr

/-- `getVerdict` from TextAnalyzer.tsx (lines 497-505), verbatim:
`trustScore < 50 || suspiciousRatio > 0.3` → AI Generated,
else `trustScore > 75 && suspiciousRatio < 0.1` → Likely Human,
else Inconclusive. -/
def getVerdict (trustScore suspiciousRatio : ℚ) : Verdict :=
  if trustScore < 50 ∨ suspiciousRatio > 3/10 then .aiGenerated
  else if trustScore > 75 ∧ suspiciousRatio < 1/10 then .likelyHuman
  else .inconclusive

/-- Spec-side restatement of the `finalizeSession` classification, written
from the specification's words (§4.3): a pure function of
`(avgTrustScore, suspiciousCount, detectionCount)` with
`suspiciousRatio = suspiciousCount / detectionCount`. -/
def verdictSpec (avgTrustScore : ℚ) (suspiciousCount detectionCount : ℕ) : Verdict :=
  let suspiciousRatio : ℚ := (suspiciousCount : ℚ) / (detectionCount : ℚ)
  if avgTrustScore < 50 ∨ suspiciousRatio > 3/10 then .aiGenerated
  else if avgTrustScore > 75 ∧ suspiciousRatio < 1/10 then .likelyHuman
  else .inconclusive

/-! ### Result aggregator (`handleDetectionResult`, src/src/App.tsx 162-216) -/

/-- The relay's response for one chunk, as consumed by
`handleDetectionResult` (the fields the aggregator reads). -/
structure DetectionResult where
  trustScore : ℚ
  suspicious : Bool
  mediaType : String
deriving DecidableEq, Repr

/-- `DetectionData` from App.tsx (the score-carrying fields; the
`timestamp`/`confidence`/`processingTime` pass-through fields are
irrelevant to every claim and omitted). -/
structure DetectionData where
  videoScore : ℤ
  audioScore : ℤ
  overallScore : ℤ
  alert : Bool
deriving DecidableEq, Repr

/-- The initial `currentData` (App.tsx 34-40 and the reset on start). -/
def initialData : DetectionData :=
  { videoScore := 0, audioScore := 0, overallScore := 0, alert := false }

/-- App.tsx 165-185: update the per-source score for the result's
`mediaType` (`if/else if` on `'video'`/`'audio'`), recompute
`overallScore = Math.round((videoScore + audioScore) / 2)` and
`alert = result.suspicious || overallScore < 50`. -/
def updateData (d : DetectionData) (r : DetectionResult) : DetectionData :=
  let scores : ℤ × ℤ :=
    if r.mediaType = "video" then (jsRound (r.trustScore * 100), d.audioScore)
    else if r.mediaType = "audio" then (d.videoScore, jsRound (r.trustScore * 100))
    else (d.videoScore, d.audioScore)
  let overallScore := jsRound (((scores.1 + scores.2 : ℤ) : ℚ) / 2)
  { videoScore := scores.1
  , audioScore := scores.2
  , overallScore := overallScore
  , alert := r.suspicious || decide (overallScore < 50) }

/-- The `currentSession` statistics (App.tsx 48-53). -/
structure Session where
  detectionCount : ℕ
  suspiciousCount : ℕ
  avgTrustScore : ℚ
deriving DecidableEq, Repr

/-- The fresh session created when detection starts (App.tsx 274-279). -/
def initialSession : Session :=
  { detectionCount := 0, suspiciousCount := 0, avgTrustScore := 0 }

/-- The per-result percentage score the aggregator feeds into the running
mean: `Math.round(result.trustScore * 100)` (App.tsx 203). -/
def perResultScore (r : DetectionResult) : ℤ := jsRound (r.trustScore * 100)

/-- App.tsx 203-215: the session update —
`avg' = (avg * n + Math.round(trustScore*100)) / (n + 1)`,
counters incremented. -/
def updateSession (s : Session) (r : DetectionResult) : Session :=
  let trustScore : ℚ := (perResultScore r : ℚ)
  let newDetectionCount := s.detectionCount + 1
  { detectionCount := newDetectionCount
  , suspiciousCount := s.suspiciousCount + (if r.suspicious then 1 else 0)
  , avgTrustScore :=
      (s.avgTrustScore * (s.detectionCount : ℚ) + trustScore) / (newDetectionCount : ℚ) }

/-! ### Text-analysis input gate
(`handleAnalyze`, src/src/components/TextAnalyzer.tsx 129-167, and
`analyzeResponse`, the TestResponseDetector component, lines 28-62) -/

/-- The component-local state the analyze handlers touch: the displayed
result, the error message, and two effect counters recording how many
times the analysis heuristic ran and how many network requests were
issued. -/
structure AnalyzerState (α : Type) where
  result : Option α
  error : String
  analysisRuns : ℕ
  networkRequests : ℕ
deriving DecidableEq, Repr

/-- `handleAnalyze` from TextAnalyzer.tsx 129-167.  Control flow from the
source: empty trimmed text and trimmed text shorter than 50 characters
each set a validation error and return before anything else; otherwise
the local heuristic `analyzeText` runs and its result is stored.  The
heuristic itself (≈100 lines of string statistics) is passed as a
parameter since no claim constrains its value; this handler issues no
network request on any path, so `networkRequests` is never touched. -/
def handleAnalyze (analyzeText : String → α) (text : String)
    (s : AnalyzerState α) : AnalyzerState α :=
  if jsTrim text = "" then
    { s with error := "Please enter some text first" }
  else if (jsTrim text).length < 50 then
    { s with error := "Please enter at least 50 characters for accurate analysis" }
  else
    { s with error := ""
           , result := some (analyzeText text)
           , analysisRuns := s.analysisRuns + 1 }

/-- `analyzeResponse` from the TestResponseDetector component (lines
28-62): the same gate in front of a `fetch` to the detection endpoint;
the backend's reply is the parameter `apiResult`.  The fetch happens only
after both validation checks pass. -/
def analyzeResponse (apiResult : String → α) (response : String)
    (s : AnalyzerState α) : AnalyzerState α :=
  if jsTrim response = "" then
    { s with error := "Please enter a test response to analyze" }
  else if (jsTrim response).length < 50 then
    { s with error := "Response too short for accurate analysis (minimum 50 characters)" }
  else
    { s with error := ""
           , result := some (apiResult response)
           , networkRequests := s.networkRequests + 1 }

/-! ### Client-side history and evidence lists (App.tsx 187-199) -/

/-- An evidence segment as the client stores it (App.tsx 192-198;
`id`/`timestamp` are wall-clock values irrelevant to every claim). -/
structure ClientSegment where
  type : String
  score : ℤ
  duration : ℚ
deriving DecidableEq, Repr

/-- The segment built from a result at App.tsx 192-198:
`score = Math.round(result.trustScore * 100)`, `duration = 2.0`. -/
def clientSegment (r : DetectionResult) : ClientSegment :=
  { type := r.mediaType, score := jsRound (r.trustScore * 100), duration := 2 }

/-- App.tsx 190-199: append an evidence segment exactly when the result
is suspicious. -/
def clientSegmentsStep (segs : List ClientSegment) (r : DetectionResult) :
    List ClientSegment :=
  if r.suspicious then segs ++ [clientSegment r] else segs

/-- App.tsx 188: `setDetectionHistory(prev => [...prev.slice(-49), newData])`. -/
def detectionHistoryAppend (prev : List DetectionData) (d : DetectionData) :
    List DetectionData :=
  jsSliceLast 49 prev ++ [d]

/-! ### The whole client-side result handler and its event traces -/

/-- The App-level state `handleDetectionResult` reads and writes, plus the
set of in-flight uploads.  Each pending upload carries the value of
`isActive` captured by the `onDataAvailable` closure that launched it
(App.tsx 524-541): in JS, both the pre-upload guard `if (!isActive)
return` and the post-arrival guard `if (isActive)` read the binding
captured when the recorder's handler was installed, not the state current
at arrival time. -/
structure AppState where
  isActive : Bool
  currentData : DetectionData
  currentSession : Option Session
  detectionHistory : List DetectionData
  suspiciousSegments : List ClientSegment
  pending : List (DetectionResult × Bool)
deriving DecidableEq, Repr

/-- `handleDetectionResult` (App.tsx 162-216) as one state transformer:
update `currentData`, append to the bounded history, append an evidence
segment when suspicious, and fold the result into the current session's
running statistics when a session exists. -/
def handleDetectionResult (st : AppState) (r : DetectionResult) : AppState :=
  let newData := updateData st.currentData r
  { st with
    currentData := newData
    detectionHistory := detectionHistoryAppend st.detectionHistory newData
    suspiciousSegments := clientSegmentsStep st.suspiciousSegments r
    currentSession := st.currentSession.map (fun s => updateSession s r) }

/-- The externally visible events of one monitoring session. -/
inductive AppEvent where
  /-- `handleToggleDetection` start branch (App.tsx 263-281). -/
  | startDetection
  /-- A chunk's upload is launched by the `onDataAvailable` closure;
  `capturedActive` is the `isActive` value that closure captured, and `r`
  the detection result the backend will eventually return for it. -/
  | launchUpload (r : DetectionResult) (capturedActive : Bool)
  /-- `handleToggleDetection` stop branch (App.tsx 227-235):
  `setIsActive(false)` and the video/audio scores of `currentData` are
  zeroed; the session object is not cleared. -/
  | stopDetection
  /-- The oldest in-flight upload's response arrives: the `.then` guard
  `if (isActive)` (App.tsx 536) tests the closure-captured flag and, when
  it holds, runs `handleDetectionResult`. -/
  | arriveUpload
deriving DecidableEq, Repr

/-- The App state before anything happened (App.tsx 30-53). -/
def initialAppState : AppState :=
  { isActive := false
  , currentData := initialData
  , currentSession := none
  , detectionHistory := []
  , suspiciousSegments := []
  , pending := [] }

/-- One step of the client under JS closure semantics (see `AppState`). -/
def appStep (st : AppState) (e : AppEvent) : AppState :=
  match e with
  | .startDetection =>
      { st with isActive := true
              , detectionHistory := []
              , currentData := initialData
              , currentSession := some initialSession }
  | .launchUpload r cap =>
      if cap then { st with pending := st.pending ++ [(r, cap)] } else st
  | .stopDetection =>
      { st with isActive := false
              , currentData := { st.currentData with videoScore := 0, audioScore := 0 } }
  | .arriveUpload =>
      match st.pending with
      | [] => st
      | (r, cap) :: rest =>
          let st' := { st with pending := rest }
          if cap then handleDetectionResult st' r else st'

/-- Run a trace of events from the initial state. -/
def runApp (es : List AppEvent) : AppState := es.foldl appStep initialAppState

/-! ### Backend (src/server/index.js, plus the revision in
src/unnamed/part_009 for the suspicious-segments cap) -/

/-- The fields of an uploaded file the detect endpoint reads. -/
structure UploadedFile where
  path : String
  mimetype : String
deriving DecidableEq, Repr

/-- `req.file.mimetype.includes('video') ? 'video' : 'audio'`
(server/index.js 195). -/
def mediaTypeOf (f : UploadedFile) : String :=
  if jsIncludes f.mimetype "video" then "video" else "audio"

/-- What `runPythonInference` returns (the fields the endpoint reads). -/
structure InferenceResult where
  trustScore : ℚ
  suspicious : Bool
  mediaType : String
  confidence : Option ℚ
deriving DecidableEq, Repr

/-- A backend detection-history entry (server/index.js 214-219). -/
structure ServerDetection where
  trustScore : ℚ
  suspicious : Bool
  mediaType : String
  filePath : Option String
deriving DecidableEq, Repr

/-- A backend suspicious segment (server/index.js 225-232); the retained
file's path is kept so that `DELETE /api/suspicious` can try to remove
it. -/
structure ServerSegment where
  type : String
  score : ℤ
  duration : ℚ
  filePath : Option String
deriving DecidableEq, Repr

/-- The backend's module-level mutable state (server/index.js 43-44 and
the `isRecording` flag). -/
structure ServerState where
  isRecording : Bool
  detectionHistory : List ServerDetection
  suspiciousSegments : List ServerSegment
deriving DecidableEq, Repr

/-- The backend state at startup: recording off, both lists empty. -/
def initialServerState : ServerState :=
  { isRecording := false, detectionHistory := [], suspiciousSegments := [] }

/-- server/index.js 213-238: the state update of the recording path of
`POST /api/detect` — push the detection entry, push a suspicious segment
with `score = Math.round(result.trustScore * 100)` when suspicious, then
cap `detectionHistory` at its most recent 100 entries
(`detectionHistory.slice(-100)`).  `suspiciousSegments` is not capped in
this file. -/
def serverDetectStep (s : ServerState) (mediaType filePath : String)
    (r : InferenceResult) : ServerState :=
  let history := s.detectionHistory ++
    [{ trustScore := r.trustScore, suspicious := r.suspicious, mediaType := mediaType
     , filePath := if r.suspicious then some filePath else none }]
  let segs :=
    if r.suspicious then
      s.suspiciousSegments ++
        [{ type := mediaType, score := jsRound (r.trustScore * 100)
         , duration := 2, filePath := some filePath }]
    else s.suspiciousSegments
  let history' := if history.length > 100 then jsSliceLast 100 history else history
  { s with detectionHistory := history', suspiciousSegments := segs }

/-- The same state update in the backend revision src/unnamed/part_009
(lines 691-728): identical pushes and history cap, and additionally
`suspiciousSegments` is capped at its most recent 50 entries
(`suspiciousSegments.slice(-50)`) after every append. -/
def detect9Step (s : ServerState) (mediaType filePath : String)
    (r : InferenceResult) : ServerState :=
  let history := s.detectionHistory ++
    [{ trustScore := r.trustScore, suspicious := r.suspicious, mediaType := mediaType
     , filePath := if r.suspicious then some filePath else none }]
  let segs :=
    if r.suspicious then
      s.suspiciousSegments ++
        [{ type := mediaType, score := jsRound (r.trustScore * 100)
         , duration := 2, filePath := some filePath }]
    else s.suspiciousSegments
  let history' := if history.length > 100 then jsSliceLast 100 history else history
  let segs' := if segs.length > 50 then jsSliceLast 50 segs else segs
  { s with detectionHistory := history', suspiciousSegments := segs' }

/-- The JSON body `POST /api/detect` answers with (server/index.js
184-191 and 240-246); `badRequest` is the 400 `{error}` reply for a
missing file. -/
inductive DetectResponse where
  | badRequest
  | ok (trustScore : ℚ) (suspicious : Bool) (mediaType : String)
       (confidence : ℚ) (skipped : Bool)
deriving DecidableEq, Repr

/-- The full effect of one `POST /api/detect` request: the new backend
state, the response, and whether inference ran / the uploaded file was
deleted right away. -/
structure DetectOutcome where
  state : ServerState
  response : DetectResponse
  inferenceRan : Bool
  uploadDeleted : Bool
deriving DecidableEq, Repr

/-- `POST /api/detect` (server/index.js 170-271).  `inference` stands for
the opaque `runPythonInference` subprocess.  With no file: 400.  With
`isRecording` false (lines 176-192): the upload is unlinked immediately,
no inference runs, the state is untouched, and the fixed
`{trustScore: 0.8, suspicious: false, confidence: 0.9, skipped: true}`
body is returned with status 200.  Otherwise inference runs, the
non-suspicious upload is deleted, and the state update is
`serverDetectStep`. -/
def apiDetect (s : ServerState) (file : Option UploadedFile)
    (inference : UploadedFile → InferenceResult) : DetectOutcome :=
  match file with
  | none =>
      { state := s, response := .badRequest, inferenceRan := false, uploadDeleted := false }
  | some f =>
      if s.isRecording = false then
        { state := s
        , response := .ok (4/5) false (mediaTypeOf f) (9/10) true
        , inferenceRan := false
        , uploadDeleted := true }
      else
        let r := inference f
        { state := serverDetectStep s (mediaTypeOf f) f.path r
        , response := .ok r.trustScore r.suspicious r.mediaType (r.confidence.getD (85/100)) false
        , inferenceRan := true
        , uploadDeleted := !r.suspicious }

/-- The effect of one `DELETE /api/suspicious` request. -/
structure DeleteOutcome where
  state : ServerState
  status : ℕ
  success : Bool
  failedDeletes : ℕ
deriving DecidableEq, Repr

/-- `DELETE /api/suspicious` (server/index.js 284-327).  For every
segment with a retained file the server attempts an `fs.unlink`; the
parameter `deleteOk` says which of those attempts succeed.  Failures are
only logged (the per-file callbacks always `resolve()`), counted here in
`failedDeletes`; afterwards `suspiciousSegments` is reset to `[]` and
`{success: true}` is sent with status 200 on every path. -/
def apiDeleteSuspicious (s : ServerState) (deleteOk : String → Bool) : DeleteOutcome :=
  let failed := s.suspiciousSegments.filter fun seg =>
    match seg.filePath with
    | some p => !(deleteOk p)
    | none => false
  { state := { s with suspiciousSegments := [] }
  , status := 200
  , success := true
  , failedDeletes := failed.length }

/-! ### Capture-loop `stop`
(`stopScreenCapture`, src/src/components/ScreenCapture.tsx 62-86, and
`stopCapture`, src/src/components/MediaCapture.tsx 184-200) -/

/-- A `MediaRecorder`'s `state` attribute. -/
inductive RecorderState where
  | inactive
  | recording
  | paused
deriving DecidableEq, Repr

/-- The refs and effect counters of the ScreenCapture component:
`mediaRecorderSet`/`streamSet` say whether `mediaRecorderRef.current` /
`streamRef.current` are non-null, `trackCount` is how many tracks the
held stream has, and the two counters record cumulative `.stop()` calls
on the recorder object and on device tracks (a double release would make
them grow on a second stop). -/
structure ScreenCaptureState where
  mediaRecorderSet : Bool
  streamSet : Bool
  trackCount : ℕ
  isRecording : Bool
  hasStarted : Bool
  recorderStopCalls : ℕ
  trackStopCalls : ℕ
deriving DecidableEq, Repr

/-- `stopScreenCapture` (ScreenCapture.tsx 62-86): guarded by
`if (mediaRecorderRef.current)`; inside, stop the recorder, stop every
track of the held stream, clear `isRecording`, and null out both refs and
the `hasStarted` flag.  With a null recorder ref the call does nothing. -/
def stopScreenCapture (s : ScreenCaptureState) : ScreenCaptureState :=
  if s.mediaRecorderSet then
    { s with
      recorderStopCalls := s.recorderStopCalls + 1
      trackStopCalls := s.trackStopCalls + (if s.streamSet then s.trackCount else 0)
      isRecording := false
      mediaRecorderSet := false
      streamSet := false
      hasStarted := false }
  else s

/-- The refs and effect counters of the MediaCapture component; `recorder`
is `mediaRecorderRef.current` together with its `state` attribute
(`.stop()` moves a recording recorder to `inactive`). -/
structure MediaCaptureState where
  streamSet : Bool
  trackCount : ℕ
  intervalsActive : Bool
  recorder : Option RecorderState
  recorderStopCalls : ℕ
  trackStopCalls : ℕ
deriving DecidableEq, Repr

/-- `stopCapture` (MediaCapture.tsx 184-200): if the stream ref is set,
clear the capture intervals, stop every track and null the ref; then stop
the recorder only when `mediaRecorderRef.current` exists and its state is
`'recording'`. -/
def stopCapture (s : MediaCaptureState) : MediaCaptureState :=
  let s1 :=
    if s.streamSet then
      { s with
        intervalsActive := false
        trackStopCalls := s.trackStopCalls + s.trackCount
        streamSet := false }
    else s
  if s1.recorder = some .recording then
    { s1 with recorder := some .inactive, recorderStopCalls := s1.recorderStopCalls + 1 }
  else s1

/-! ## Helper lemmas -/

theorem jsSliceLast_of_le {l : List α} {n : ℕ} (h : l.length ≤ n) :
    jsSliceLast n l = l := by
  unfold jsSliceLast
  rw [Nat.sub_eq_zero_of_le h, List.drop_zero]

theorem updateSession_detectionCount (s : Session) (r : DetectionResult) :
    (updateSession s r).detectionCount = s.detectionCount + 1 := rfl

theorem updateSession_total (s : Session) (r : DetectionResult) :
    (updateSession s r).avgTrustScore * ((updateSession s r).detectionCount : ℚ) =
      s.avgTrustScore * (s.detectionCount : ℚ) + (perResultScore r : ℚ) := by
  have h : ((s.detectionCount : ℚ) + 1) ≠ 0 := by positivity
  simp only [updateSession]
  push_cast
  rw [div_mul_cancel₀ _ h]

theorem foldl_updateSession_count (rs : List DetectionResult) (s : Session) :
    (rs.foldl updateSession s).detectionCount = s.detectionCount + rs.length := by
  induction rs generalizing s with
  | nil => simp
  | cons r rs ih =>
    rw [List.foldl_cons, ih, updateSession_detectionCount, List.length_cons]
    omega

theorem foldl_updateSession_total (rs : List DetectionResult) (s : Session) :
    (rs.foldl updateSession s).avgTrustScore *
        ((rs.foldl updateSession s).detectionCount : ℚ) =
      s.avgTrustScore * (s.detectionCount : ℚ) +
        ((rs.map fun r => (perResultScore r : ℚ)).sum) := by
  induction rs generalizing s with
  | nil => simp
  | cons r rs ih =>
    rw [List.foldl_cons, ih, updateSession_total]
    simp [add_assoc]

theorem foldl_updateSession_mean (rs : List DetectionResult) :
    (rs.foldl updateSession initialSession).avgTrustScore =
      ((rs.map fun r => (perResultScore r : ℚ)).sum) / (rs.length : ℚ) := by
  rcases Nat.eq_zero_or_pos rs.length with h0 | hpos
  · rw [List.length_eq_zero] at h0
    subst h0
    simp [initialSession]
  · have htot := foldl_updateSession_total rs initialSession
    have hcnt := foldl_updateSession_count rs initialSession
    rw [hcnt] at htot
    simp only [initialSession, Nat.cast_ofNat, Nat.zero_add, Nat.cast_zero, zero_mul,
      zero_add] at htot
    have hne : (rs.length : ℚ) ≠ 0 := Nat.cast_ne_zero.mpr (by omega)
    rw [eq_div_iff hne]
    exact htot

/-! ## Claim theorems -/

/-- C1: the session verdict is a pure function of
`(avgTrustScore, suspiciousCount, detectionCount)`: for `detectionCount > 0`
and `suspiciousRatio = suspiciousCount / detectionCount`, `getVerdict`
returns AI Generated when `avgTrustScore < 50` or `suspiciousRatio > 0.3`,
otherwise Likely Human when `avgTrustScore > 75` and
`suspiciousRatio < 0.1`, otherwise Inconclusive; in particular
`(40, 4, 10)` is AI Generated, `(80, 0, 10)` Likely Human and
`(60, 1, 10)` Inconclusive. -/
theorem c1_verdict_pure_classification (avgTrustScore : ℚ)
    (suspiciousCount detectionCount : ℕ) (h : 0 < detectionCount) :
    getVerdict avgTrustScore ((suspiciousCount : ℚ) / (detectionCount : ℚ)) =
      verdictSpec avgTrustScore suspiciousCount detectionCount ∧
    verdictSpec 40 4 10 = .aiGenerated ∧
    verdictSpec 80 0 10 = .likelyHuman ∧
    verdictSpec 60 1 10 = .inconclusive := by
  refine ⟨rfl, ?_, ?_, ?_⟩ <;> norm_num [verdictSpec]

/-- Witness for C1 at the session `(40, 4, 10)`. -/
theorem c1_verdict_pure_classification_witness :
    0 < 10 ∧
    (getVerdict 40 ((4 : ℚ) / (10 : ℚ)) = verdictSpec 40 4 10 ∧
      verdictSpec 40 4 10 = .aiGenerated ∧
      verdictSpec 80 0 10 = .likelyHuman ∧
      verdictSpec 60 1 10 = .inconclusive) :=
  ⟨by norm_num, c1_verdict_pure_classification 40 4 10 (by norm_num)⟩

/-- C2: folding results with `trustScore ∈ [0,1]` into a fresh session via
`avg' = (avg*n + new)/(n+1)` makes the final `avgTrustScore` the
arithmetic mean of the per-result scores `Math.round(trustScore*100)`,
and the aggregate is invariant under permuting the sequence. -/
theorem c2_running_mean_order_independent (rs rs' : List DetectionResult)
    (hrange : ∀ r ∈ rs, 0 ≤ r.trustScore ∧ r.trustScore ≤ 1)
    (hperm : rs.Perm rs') :
    (rs.foldl updateSession initialSession).avgTrustScore =
      ((rs.map fun r => (perResultScore r : ℚ)).sum) / (rs.length : ℚ) ∧
    (rs.foldl updateSession initialSession).avgTrustScore =
      (rs'.foldl updateSession initialSession).avgTrustScore := by
  refine ⟨foldl_updateSession_mean rs, ?_⟩
  rw [foldl_updateSession_mean rs, foldl_updateSession_mean rs',
    (hperm.map fun r => (perResultScore r : ℚ)).sum_eq, hperm.length_eq]

/-- Witness for C2 on the two-result sequence and its swap. -/
theorem c2_running_mean_order_independent_witness :
    (∀ r ∈ [({ trustScore := 0, suspicious := false, mediaType := "video" } : DetectionResult),
            { trustScore := 1, suspicious := true, mediaType := "audio" }],
        0 ≤ r.trustScore ∧ r.trustScore ≤ 1) ∧
    List.Perm
      [({ trustScore := 0, suspicious := false, mediaType := "video" } : DetectionResult),
       { trustScore := 1, suspicious := true, mediaType := "audio" }]
      [{ trustScore := 1, suspicious := true, mediaType := "audio" },
       { trustScore := 0, suspicious := false, mediaType := "video" }] ∧
    (([({ trustScore := 0, suspicious := false, mediaType := "video" } : DetectionResult),
        { trustScore := 1, suspicious := true, mediaType := "audio" }].foldl
          updateSession initialSession).avgTrustScore =
      (([({ trustScore := 0, suspicious := false, mediaType := "video" } : DetectionResult),
          { trustScore := 1, suspicious := true, mediaType := "audio" }].map
            fun r => (perResultScore r : ℚ)).sum) /
        (([({ trustScore := 0, suspicious := false, mediaType := "video" } : DetectionResult),
           { trustScore := 1, suspicious := true, mediaType := "audio" }] : List DetectionResult).length : ℚ) ∧
    ([({ trustScore := 0, suspicious := false, mediaType := "video" } : DetectionResult),
      { trustScore := 1, suspicious := true, mediaType := "audio" }].foldl
        updateSession initialSession).avgTrustScore =
      ([({ trustScore := 1, suspicious := true, mediaType := "audio" } : DetectionResult),
        { trustScore := 0, suspicious := false, mediaType := "video" }].foldl
          updateSession initialSession).avgTrustScore) := by
  have hrange : ∀ r ∈ [({ trustScore := 0, suspicious := false, mediaType := "video" } : DetectionResult),
      { trustScore := 1, suspicious := true, mediaType := "audio" }],
      0 ≤ r.trustScore ∧ r.trustScore ≤ 1 := by
    intro r hr
    fin_cases hr <;> exact ⟨by norm_num, by norm_num⟩
  have hperm := List.Perm.swap
    ({ trustScore := 1, suspicious := true, mediaType := "audio" } : DetectionResult)
    { trustScore := 0, suspicious := false, mediaType := "video" } []
  exact ⟨hrange, hperm, c2_running_mean_order_independent _ _ hrange hperm⟩

/-- C3: the aggregator updates only the per-source score matching the
result's `mediaType`, recomputes
`overallScore = round((videoScore + audioScore)/2)`, and sets
`alert = suspicious || overallScore < 50`. -/
theorem c3_update_per_source_overall_alert (d : DetectionData) (r : DetectionResult) :
    (updateData d r).videoScore =
        (if r.mediaType = "video" then jsRound (r.trustScore * 100) else d.videoScore) ∧
    (updateData d r).audioScore =
        (if r.mediaType = "audio" then jsRound (r.trustScore * 100) else d.audioScore) ∧
    (updateData d r).overallScore =
        jsRound ((((updateData d r).videoScore + (updateData d r).audioScore : ℤ) : ℚ) / 2) ∧
    (updateData d r).alert =
        (r.suspicious || decide ((updateData d r).overallScore < 50)) := by
  by_cases hv : r.mediaType = "video"
  · have ha : ¬ r.mediaType = "audio" := by rw [hv]; decide
    simp [updateData, hv, ha]
  · by_cases ha : r.mediaType = "audio" <;> simp [updateData, hv, ha]

/-- C4: a text whose trimmed length is below 50 characters is rejected
with a validation error before any analysis or network request, leaving
the stored result untouched, while trimmed length at least 50 proceeds to
analysis (and, in the fetch-based variant, to the one network request). -/
theorem c4_short_text_rejected_before_io {α : Type} (analyzeText apiResult : String → α)
    (text : String) (s : AnalyzerState α)
    (hshort : (jsTrim text).length < 50) :
    (handleAnalyze analyzeText text s).result = s.result ∧
    (handleAnalyze analyzeText text s).analysisRuns = s.analysisRuns ∧
    (handleAnalyze analyzeText text s).networkRequests = s.networkRequests ∧
    (handleAnalyze analyzeText text s).error =
      (if jsTrim text = "" then "Please enter some text first"
       else "Please enter at least 50 characters for accurate analysis") ∧
    (analyzeResponse apiResult text s).result = s.result ∧
    (analyzeResponse apiResult text s).networkRequests = s.networkRequests ∧
    (∀ t : String, 50 ≤ (jsTrim t).length →
      (handleAnalyze analyzeText t s).analysisRuns = s.analysisRuns + 1 ∧
      (handleAnalyze analyzeText t s).result = some (analyzeText t) ∧
      (analyzeResponse apiResult t s).networkRequests = s.networkRequests + 1) := by
  have hlong : ∀ t : String, 50 ≤ (jsTrim t).length →
      (handleAnalyze analyzeText t s).analysisRuns = s.analysisRuns + 1 ∧
      (handleAnalyze analyzeText t s).result = some (analyzeText t) ∧
      (analyzeResponse apiResult t s).networkRequests = s.networkRequests + 1 := by
    intro t ht
    have hne : ¬ jsTrim t = "" := by
      intro he
      rw [he] at ht
      simp at ht
    have hnlt : ¬ (jsTrim t).length < 50 := not_lt.mpr ht
    simp [handleAnalyze, analyzeResponse, hne, hnlt]
  refine ⟨?_, ?_, ?_, ?_, ?_, ?_, hlong⟩ <;>
    by_cases he : jsTrim text = "" <;>
      simp [handleAnalyze, analyzeResponse, he, hshort]

/-- Witness for C4 on a 13-character input (with the heuristic and the
backend reply both instantiated by `String.length`). -/
theorem c4_short_text_rejected_before_io_witness :
    (jsTrim "  hello there  ").length < 50 ∧
    ((handleAnalyze String.length "  hello there  "
        ({ result := some 7, error := "old", analysisRuns := 3, networkRequests := 4 } :
          AnalyzerState ℕ)).result =
      ({ result := some 7, error := "old", analysisRuns := 3, networkRequests := 4 } :
          AnalyzerState ℕ).result ∧
    (handleAnalyze String.length "  hello there  "
        ({ result := some 7, error := "old", analysisRuns := 3, networkRequests := 4 } :
          AnalyzerState ℕ)).analysisRuns = 3 ∧
    (handleAnalyze String.length "  hello there  "
        ({ result := some 7, error := "old", analysisRuns := 3, networkRequests := 4 } :
          AnalyzerState ℕ)).networkRequests = 4 ∧
    (handleAnalyze String.length "  hello there  "
        ({ result := some 7, error := "old", analysisRuns := 3, networkRequests := 4 } :
          AnalyzerState ℕ)).error =
      (if jsTrim "  hello there  " = "" then "Please enter some text first"
       else "Please enter at least 50 characters for accurate analysis") ∧
    (analyzeResponse String.length "  hello there  "
        ({ result := some 7, error := "old", analysisRuns := 3, networkRequests := 4 } :
          AnalyzerState ℕ)).result =
      ({ result := some 7, error := "old", analysisRuns := 3, networkRequests := 4 } :
          AnalyzerState ℕ).result ∧
    (analyzeResponse String.length "  hello there  "
        ({ result := some 7, error := "old", analysisRuns := 3, networkRequests := 4 } :
          AnalyzerState ℕ)).networkRequests = 4 ∧
    (∀ t : String, 50 ≤ (jsTrim t).length →
      (handleAnalyze String.length t
          ({ result := some 7, error := "old", analysisRuns := 3, networkRequests := 4 } :
            AnalyzerState ℕ)).analysisRuns = 3 + 1 ∧
      (handleAnalyze String.length t
          ({ result := some 7, error := "old", analysisRuns := 3, networkRequests := 4 } :
            AnalyzerState ℕ)).result = some t.length ∧
      (analyzeResponse String.length t
          ({ result := some 7, error := "old", analysisRuns := 3, networkRequests := 4 } :
            AnalyzerState ℕ)).networkRequests = 4 + 1)) :=
  ⟨by decide, c4_short_text_rejected_before_io String.length String.length "  hello there  "
    { result := some 7, error := "old", analysisRuns := 3, networkRequests := 4 } (by decide)⟩

/-- C5 counterexample: in `src/server/index.js` the backend
`suspiciousSegments` list is not capped — after 51 suspicious results it
holds 51 entries, so the claim that it holds at most the 50 most recent
entries after every append is false of that file. -/
theorem c5_counterexample_server_segments_unbounded :
    ¬ (((List.replicate 51
          ({ trustScore := 1/5, suspicious := true, mediaType := "video"
           , confidence := none } : InferenceResult)).foldl
            (fun st r => serverDetectStep st "video" "chunk.webm" r)
            { isRecording := true, detectionHistory := [], suspiciousSegments := [] }
        ).suspiciousSegments.length ≤ 50) := by
  decide

/-- C5 (amended): the client detection-history list holds at most 50
entries after every append; the backend caps `suspiciousSegments` at its
50 most recent entries only in the revision src/unnamed/part_009, whose
update equals the src/server/index.js update followed by `slice(-50)`
(in src/server/index.js itself the suspicious list is unbounded and only
`detectionHistory` is capped, at 100). -/
theorem c5_amended_bounded_history (prev : List DetectionData) (d : DetectionData)
    (s : ServerState) (mt fp : String) (r : InferenceResult) :
    (detectionHistoryAppend prev d).length ≤ 50 ∧
    (detect9Step s mt fp r).suspiciousSegments.length ≤ 50 ∧
    (detect9Step s mt fp r).suspiciousSegments =
      jsSliceLast 50 (serverDetectStep s mt fp r).suspiciousSegments := by
  have hshape : (detect9Step s mt fp r).suspiciousSegments =
      (if ((serverDetectStep s mt fp r).suspiciousSegments).length > 50
       then jsSliceLast 50 ((serverDetectStep s mt fp r).suspiciousSegments)
       else (serverDetectStep s mt fp r).suspiciousSegments) := rfl
  refine ⟨?_, ?_, ?_⟩
  · simp [detectionHistoryAppend, jsSliceLast_length]
  · rw [hshape]
    split
    · rw [jsSliceLast_length]
      omega
    · omega
  · rw [hshape]
    split
    · rfl
    · rw [jsSliceLast_of_le (by omega)]

/-- C6: `stop()` is idempotent for both capture loops: a second call in a
row leaves exactly the state of the first call, in particular the device
tracks' and recorders' cumulative stop counts do not grow, so no track is
released twice. -/
theorem c6_stop_idempotent :
    (∀ s : ScreenCaptureState,
        stopScreenCapture (stopScreenCapture s) = stopScreenCapture s) ∧
    (∀ m : MediaCaptureState, stopCapture (stopCapture m) = stopCapture m) := by
  constructor
  · intro s
    by_cases h : s.mediaRecorderSet <;> simp [stopScreenCapture, h]
  · intro m
    obtain ⟨ss, tc, ia, rec, rsc, tsc⟩ := m
    cases ss <;> rcases rec with _ | st
    · simp [stopCapture]
    · cases st <;> simp [stopCapture]
    · simp [stopCapture]
    · cases st <;> simp [stopCapture]

/-- C7 (code evaluation at the failing trace): a result whose upload was
launched while the session was active but which arrives after `stop()`
does mutate the aggregator — the closure-captured `isActive` guard
(App.tsx 525 and 536) still reads `true`, so `handleDetectionResult`
runs: the session counters advance from `(0, 0)` to `(1, 1)`, the history
grows and `currentData` raises its alert, contradicting the claim that
arrival after stop leaves the aggregate unchanged. -/
theorem c7_arrival_after_stop_mutates_aggregate :
    ((runApp [.startDetection,
       .launchUpload { trustScore := 1/5, suspicious := true, mediaType := "video" } true,
       .stopDetection]).isActive = false ∧
     ((runApp [.startDetection,
       .launchUpload { trustScore := 1/5, suspicious := true, mediaType := "video" } true,
       .stopDetection]).currentSession.map
         fun s => (s.detectionCount, s.suspiciousCount)) = some (0, 0) ∧
     (runApp [.startDetection,
       .launchUpload { trustScore := 1/5, suspicious := true, mediaType := "video" } true,
       .stopDetection]).detectionHistory.length = 0 ∧
     (runApp [.startDetection,
       .launchUpload { trustScore := 1/5, suspicious := true, mediaType := "video" } true,
       .stopDetection]).currentData.alert = false) ∧
    (((runApp [.startDetection,
       .launchUpload { trustScore := 1/5, suspicious := true, mediaType := "video" } true,
       .stopDetection, .arriveUpload]).currentSession.map
         fun s => (s.detectionCount, s.suspiciousCount)) = some (1, 1) ∧
     (runApp [.startDetection,
       .launchUpload { trustScore := 1/5, suspicious := true, mediaType := "video" } true,
       .stopDetection, .arriveUpload]).detectionHistory.length = 1 ∧
     (runApp [.startDetection,
       .launchUpload { trustScore := 1/5, suspicious := true, mediaType := "video" } true,
       .stopDetection, .arriveUpload]).currentData.alert = true) := by
  decide

/-- C8: an evidence segment is created exactly when the incoming result
is suspicious — on the client and on the backend the list grows by the
single entry whose `score` is `Math.round(trustScore * 100)` when
`suspicious` is true, and is untouched when it is false. -/
theorem c8_segment_iff_suspicious (segs : List ClientSegment)
    (s : ServerState) (mt fp : String) (r : DetectionResult) (ir : InferenceResult) :
    (r.suspicious = true →
        clientSegmentsStep segs r =
          segs ++ [{ type := r.mediaType, score := jsRound (r.trustScore * 100)
                   , duration := 2 }]) ∧
    (r.suspicious = false → clientSegmentsStep segs r = segs) ∧
    (ir.suspicious = true →
        (serverDetectStep s mt fp ir).suspiciousSegments =
          s.suspiciousSegments ++
            [{ type := mt, score := jsRound (ir.trustScore * 100), duration := 2
             , filePath := some fp }]) ∧
    (ir.suspicious = false →
        (serverDetectStep s mt fp ir).suspiciousSegments = s.suspiciousSegments) := by
  refine ⟨fun h => ?_, fun h => ?_, fun h => ?_, fun h => ?_⟩ <;>
    simp [clientSegmentsStep, clientSegment, serverDetectStep, h]

/-- Witness for C8: one suspicious and one clean result, client and
backend. -/
theorem c8_segment_iff_suspicious_witness :
    (clientSegmentsStep [] { trustScore := 1/10, suspicious := true, mediaType := "video" } =
      [{ type := ({ trustScore := 1/10, suspicious := true, mediaType := "video" } :
            DetectionResult).mediaType
        , score := jsRound (({ trustScore := 1/10, suspicious := true, mediaType := "video" } :
            DetectionResult).trustScore * 100)
        , duration := 2 }]) ∧
    (clientSegmentsStep [] { trustScore := 9/10, suspicious := false, mediaType := "audio" } = []) ∧
    ((serverDetectStep { isRecording := true, detectionHistory := [], suspiciousSegments := [] }
        "video" "chunk.webm"
        { trustScore := 1/10, suspicious := true, mediaType := "video", confidence := none }
      ).suspiciousSegments =
      [] ++ [{ type := "video"
             , score := jsRound (({ trustScore := 1/10, suspicious := true, mediaType := "video"
                                  , confidence := none } : InferenceResult).trustScore * 100)
             , duration := 2, filePath := some "chunk.webm" }]) ∧
    ((serverDetectStep { isRecording := true, detectionHistory := [], suspiciousSegments := [] }
        "audio" "chunk.wav"
        { trustScore := 9/10, suspicious := false, mediaType := "audio", confidence := none }
      ).suspiciousSegments = []) :=
  ⟨(c8_segment_iff_suspicious []
      { isRecording := true, detectionHistory := [], suspiciousSegments := [] }
      "video" "chunk.webm"
      { trustScore := 1/10, suspicious := true, mediaType := "video" }
      { trustScore := 1/10, suspicious := true, mediaType := "video", confidence := none }).1 rfl,
   (c8_segment_iff_suspicious []
      { isRecording := true, detectionHistory := [], suspiciousSegments := [] }
      "audio" "chunk.wav"
      { trustScore := 9/10, suspicious := false, mediaType := "audio" }
      { trustScore := 9/10, suspicious := false, mediaType := "audio", confidence := none }).2.1 rfl,
   (c8_segment_iff_suspicious []
      { isRecording := true, detectionHistory := [], suspiciousSegments := [] }
      "video" "chunk.webm"
      { trustScore := 1/10, suspicious := true, mediaType := "video" }
      { trustScore := 1/10, suspicious := true, mediaType := "video", confidence := none }).2.2.1 rfl,
   (c8_segment_iff_suspicious []
      { isRecording := true, detectionHistory := [], suspiciousSegments := [] }
      "audio" "chunk.wav"
      { trustScore := 9/10, suspicious := false, mediaType := "audio" }
      { trustScore := 9/10, suspicious := false, mediaType := "audio", confidence := none }).2.2.2 rfl⟩

/-- C9: when the backend is not recording, `POST /api/detect` with a file
deletes the upload, runs no inference, leaves the state (including
`detectionHistory` and `suspiciousSegments`) unchanged, and answers 200
with `trustScore 0.8`, `suspicious false`, `skipped true`. -/
theorem c9_detect_skipped_when_not_recording (s : ServerState) (f : UploadedFile)
    (inference : UploadedFile → InferenceResult) (h : s.isRecording = false) :
    apiDetect s (some f) inference =
      { state := s
      , response := .ok (4/5) false (mediaTypeOf f) (9/10) true
      , inferenceRan := false
      , uploadDeleted := true } := by
  simp [apiDetect, h]

/-- Witness for C9: a non-recording server with a nonempty suspicious
list and a video upload. -/
theorem c9_detect_skipped_when_not_recording_witness :
    ({ isRecording := false, detectionHistory := []
     , suspiciousSegments := [{ type := "video", score := 10, duration := 2
                              , filePath := some "old.webm" }] } : ServerState).isRecording
        = false ∧
    apiDetect
      { isRecording := false, detectionHistory := []
      , suspiciousSegments := [{ type := "video", score := 10, duration := 2
                               , filePath := some "old.webm" }] }
      (some { path := "chunk.webm", mimetype := "video/webm" })
      (fun _ => { trustScore := 0, suspicious := true, mediaType := "video", confidence := none }) =
      { state := { isRecording := false, detectionHistory := []
                 , suspiciousSegments := [{ type := "video", score := 10, duration := 2
                                          , filePath := some "old.webm" }] }
      , response := .ok (4/5) false (mediaTypeOf { path := "chunk.webm", mimetype := "video/webm" })
          (9/10) true
      , inferenceRan := false
      , uploadDeleted := true } :=
  ⟨rfl,
   c9_detect_skipped_when_not_recording
     { isRecording := false, detectionHistory := []
     , suspiciousSegments := [{ type := "video", score := 10, duration := 2
                              , filePath := some "old.webm" }] }
     { path := "chunk.webm", mimetype := "video/webm" }
     (fun _ => { trustScore := 0, suspicious := true, mediaType := "video", confidence := none })
     rfl⟩

/-- C10: `DELETE /api/suspicious` empties the suspicious-segments list
and answers `{success: true}` with status 200 for every prior list and
every pattern of per-file deletion failures; the rest of the server state
is untouched. -/
theorem c10_delete_suspicious_always_succeeds (s : ServerState)
    (deleteOk : String → Bool) :
    (apiDeleteSuspicious s deleteOk).state.suspiciousSegments = [] ∧
    (apiDeleteSuspicious s deleteOk).success = true ∧
    (apiDeleteSuspicious s deleteOk).status = 200 ∧
    (apiDeleteSuspicious s deleteOk).state.detectionHistory = s.detectionHistory ∧
    (apiDeleteSuspicious s deleteOk).state.isRecording = s.isRecording :=
  ⟨rfl, rfl, rfl, rfl, rfl⟩

end AIDetection
